import Mathlib

/-!
Verification of the `prompt-engineering-playground` repository against its
specification.  This file is a shallow embedding of
`src/src/prompt_playground.py` (class `PromptEngineeringPlayground`).

Modelling choices, used throughout:

* The remote chat-completion backend (`self.client.chat.completions.create`)
  is an opaque oracle `Backend : Nat → Except String (String × Nat)` giving,
  for the i-th completion call an operation makes, either `.ok (content,
  total_tokens)` (the response's generated text and usage) or `.error msg`
  (the backend raised an exception rendered as `msg` by `str(e)`).
* Python `float` arithmetic on costs is embedded in `ℚ`; every cost the code
  computes is an integer multiple of `10 ^ (-6)` dollars, so `round(x, 6)`
  is exact and no floating-point rounding is observable at 6 decimals.
* Python dicts of the shape `{"response": ..., "tokens": ..., "cost": ...,
  ["num_paths": ...]}` are the structure `Result`; the comparison table maps
  technique names to either such a dict or `{"error": msg}` (`CompEntry`).
* Each operation also returns the list of chat requests it issued, so that
  "issues exactly n backend requests" and "no network call attempted" are
  statable.
-/

/-- One chat message: (role, content). -/
abbrev Message := String × String

/-- One call to `client.chat.completions.create`: the model, the ordered
message list and the optional sampling temperature. -/
structure ChatRequest where
  model : String
  messages : List Message
  temperature : Option ℚ := none
  deriving DecidableEq, Repr

/-- The oracle for the completion backend: the outcome of the i-th
completion call an operation makes.  `.error msg` models the backend
raising an exception whose `str(e)` is `msg`. -/
abbrev Backend := Nat → Except String (String × Nat)

/-- The dict `{"response": ..., "tokens": ..., "cost": ..., ["num_paths": ...]}`
each technique operation returns. -/
structure Result where
  response : String
  tokens : Nat
  cost : ℚ
  num_paths : Option Nat := none
  deriving DecidableEq, Repr

/-! ## Cost Estimator (`calculate_cost`, lines 389-411) -/

/-- The static price table (per 1M tokens): model ↦ (input rate, output rate). -/
def pricing : List (String × (ℚ × ℚ)) :=
  [("gpt-3.5-turbo", (0.50, 1.50)),
   ("gpt-4", (30.00, 60.00)),
   ("gpt-4-turbo", (10.00, 30.00))]

/-- Python's `round(y)` to the nearest integer, ties to even (banker's
rounding). -/
def pyRound (y : ℚ) : ℤ :=
  if y - Int.floor y = 1 / 2 then
    if Int.floor y % 2 = 0 then Int.floor y else Int.floor y + 1
  else round y

/-- Python's `round(x, 6)`. -/
def round6 (x : ℚ) : ℚ := (pyRound (x * 1000000) : ℚ) / 1000000

/-- `calculate_cost(tokens, model)`: averages the model's input and output
rates, multiplies by tokens per million, rounds to 6 decimals; a model not
in the table falls back to the default rate 1.00 per million. -/
def calculate_cost (tokens : Nat) (model : String) : ℚ :=
  match pricing.lookup model with
  | some (inp, out) => round6 (((tokens : ℚ) / 1000000) * ((inp + out) / 2))
  | none => round6 (((tokens : ℚ) / 1000000) * 1.00)

/-- The average per-million rate `calculate_cost` uses for a model. -/
def avgRate (model : String) : ℚ :=
  match pricing.lookup model with
  | some (inp, out) => (inp + out) / 2
  | none => 1.00

/-! ## Technique Operations (lines 35-387)

Each operation builds its fixed message frame, makes its completion call(s)
and either returns the response with usage-based cost, or — when the
backend raised — swallows the exception into an error `Result` with zero
tokens and zero cost.  `single_call` is the shared try/except shape of the
seven single-request operations. -/

/-- Shared body of the seven single-request operations: one completion
call; on success a `Result` with the response, usage and cost; on backend
failure a `Result` carrying `errLabel ++ str(e)`, zero tokens, zero cost. -/
def single_call (backend : Backend) (req : ChatRequest) (errLabel : String) :
    Result × List ChatRequest :=
  match backend 0 with
  | .ok (content, toks) =>
    ({ response := content, tokens := toks,
       cost := calculate_cost toks "gpt-3.5-turbo" }, [req])
  | .error e => ({ response := errLabel ++ e, tokens := 0, cost := 0 }, [req])

/-- `zero_shot_prompting(prompt)` (lines 35-67). -/
def zero_shot_prompting (backend : Backend) (prompt : String) :
    Result × List ChatRequest :=
  single_call backend
    ⟨"gpt-3.5-turbo",
     [("system", "You are a helpful assistant."), ("user", prompt)], none⟩
    "Error in zero-shot prompting: "

/-- The default examples of `few_shot_prompting` (lines 77-81), as
(input, output) pairs. -/
def default_examples : List (String × String) :=
  [("Translate to French: Hello", "Bonjour"),
   ("Translate to French: Goodbye", "Au revoir")]

/-- The message list `few_shot_prompting` builds (lines 83-91). -/
def few_shot_messages (prompt : String) (examples : List (String × String)) :
    List Message :=
  ("system", "You are a helpful translation assistant.") ::
    (examples.flatMap (fun ex => [("user", ex.1), ("assistant", ex.2)]) ++
      [("user", prompt)])

/-- `few_shot_prompting(prompt, examples=None)` (lines 69-113). -/
def few_shot_prompting (backend : Backend) (prompt : String)
    (examples : Option (List (String × String))) : Result × List ChatRequest :=
  single_call backend
    ⟨"gpt-3.5-turbo", few_shot_messages prompt (examples.getD default_examples),
     none⟩
    "Error in few-shot prompting: "

/-- The interpolated user prompt of `chain_of_thought_prompting`
(lines 122-130). -/
def chain_of_thought_user (problem : String) : String :=
  "Let's solve this problem step by step:\n        " ++ problem ++
  "\n\n        Break down your reasoning into clear, logical steps:\n        1. First, identify the key components of the problem.\n        2. Then, outline the approach to solve it.\n        3. Show the detailed calculation or reasoning.\n        4. Provide the final solution.\n        "

/-- `chain_of_thought_prompting(problem)` (lines 115-155). -/
def chain_of_thought_prompting (backend : Backend) (problem : String) :
    Result × List ChatRequest :=
  single_call backend
    ⟨"gpt-3.5-turbo",
     [("system", "You are an expert problem solver who explains reasoning clearly."),
      ("user", chain_of_thought_user problem)], none⟩
    "Error in chain-of-thought prompting: "

/-- The interpolated user prompt of `role_playing_prompting`
(lines 165-171). -/
def role_playing_user (role task : String) : String :=
  "\n        You are a " ++ role ++ ".\n        Task: " ++ task ++
  "\n\n        Please respond as if you were truly in this role, using appropriate language,\n        expertise, and perspective of the assigned persona.\n        "

/-- `role_playing_prompting(role, task)` (lines 157-196). -/
def role_playing_prompting (backend : Backend) (role task : String) :
    Result × List ChatRequest :=
  single_call backend
    ⟨"gpt-3.5-turbo",
     [("system", "You are a " ++ role ++ "."),
      ("user", role_playing_user role task)], none⟩
    "Error in role-playing prompting: "

/-- The interpolated user prompt of `persona_based_prompting`
(lines 206-214). -/
def persona_based_user (persona query : String) : String :=
  "\n        You are a " ++ persona ++
  ".\n        Consider your unique background, knowledge, and communication style.\n\n        Respond to the following query:\n        " ++
  query ++
  "\n\n        Ensure your response reflects the specific perspective of this persona.\n        "

/-- `persona_based_prompting(persona, query)` (lines 198-239). -/
def persona_based_prompting (backend : Backend) (persona query : String) :
    Result × List ChatRequest :=
  single_call backend
    ⟨"gpt-3.5-turbo",
     [("system", "You are a " ++ persona),
      ("user", persona_based_user persona query)], none⟩
    "Error in persona-based prompting: "

/-- The interpolated user prompt of `react_prompting` (lines 248-259). -/
def react_user (task : String) : String :=
  "\n        Task: " ++ task ++
  "\n\n        Use the ReAct framework to solve this task:\n        1. Thought: What do I need to think about?\n        2. Action: What action should I take?\n        3. Observation: What did I observe?\n        4. (Repeat as needed)\n        5. Answer: Final solution\n\n        Format your response with clear Thought, Action, and Observation steps.\n        "

/-- `react_prompting(task)` (lines 241-284). -/
def react_prompting (backend : Backend) (task : String) :
    Result × List ChatRequest :=
  single_call backend
    ⟨"gpt-3.5-turbo",
     [("system", "You are an AI assistant that uses the ReAct framework (Reasoning + Acting) to solve problems step by step."),
      ("user", react_user task)], none⟩
    "Error in ReAct prompting: "

/-- The interpolated user prompt of `tree_of_thoughts_prompting`
(lines 347-362). -/
def tree_of_thoughts_user (problem : String) : String :=
  "\n        Problem: " ++ problem ++
  "\n\n        Use Tree-of-Thoughts approach:\n        1. Generate 3 initial solution approaches\n        2. For each approach, evaluate its strengths and weaknesses\n        3. Select the most promising approach\n        4. Develop that approach with detailed steps\n        5. Provide the final solution\n\n        Format your response clearly showing:\n        - Initial Branches (3 approaches)\n        - Evaluation of each branch\n        - Selected branch with reasoning\n        - Detailed solution\n        "

/-- `tree_of_thoughts_prompting(problem)` (lines 340-387). -/
def tree_of_thoughts_prompting (backend : Backend) (problem : String) :
    Result × List ChatRequest :=
  single_call backend
    ⟨"gpt-3.5-turbo",
     [("system", "You are an expert at exploring multiple solution paths and selecting the best approach."),
      ("user", tree_of_thoughts_user problem)], none⟩
    "Error in Tree-of-Thoughts prompting: "

/-- The interpolated user prompt of `self_consistency_prompting`
(lines 294-299). -/
def self_consistency_user (problem : String) : String :=
  "\n        Solve this problem and explain your reasoning:\n        " ++
  problem ++ "\n\n        Show your step-by-step thinking process.\n        "

/-- The (identical) request each iteration of `self_consistency_prompting`
issues (lines 306-313): temperature 0.7 for diversity. -/
def self_consistency_request (problem : String) : ChatRequest :=
  ⟨"gpt-3.5-turbo",
   [("system", "You are an expert problem solver. Think step by step and show your reasoning."),
    ("user", self_consistency_user problem)], some 0.7⟩

/-- The `for i in range(num_samples)` loop of `self_consistency_prompting`
(lines 305-316), calling the backend at indices `start, start+1, ...`:
either all responses in order with their summed token usage, or the first
exception; the second component counts the completion calls made (the loop
stops at the first failure). -/
def sc_calls (backend : Backend) (start : Nat) :
    Nat → Except String (List String × Nat) × Nat
  | 0 => (.ok ([], 0), 0)
  | n + 1 =>
    match backend start with
    | .error e => (.error e, 1)
    | .ok (content, toks) =>
      match sc_calls backend (start + 1) n with
      | (.ok (rs, t), c) => (.ok (content :: rs, toks + t), c + 1)
      | (.error e, c) => (.error e, c + 1)

/-- The `--- Path i ---` blocks of the aggregated report (lines 320-321),
numbering from `i`. -/
def sc_paths : Nat → List String → String
  | _, [] => ""
  | i, r :: rs =>
    "--- Path " ++ toString i ++ " ---\n" ++ r ++ "\n\n" ++ sc_paths (i + 1) rs

/-- The aggregated report of `self_consistency_prompting` (lines 319-323). -/
def sc_report (num_samples : Nat) (responses : List String) : String :=
  "Self-Consistency Analysis (" ++ toString num_samples ++
    " reasoning paths):\n\n" ++
  sc_paths 1 responses ++
  "\n--- Consensus ---\nMultiple reasoning paths generated. Review the different approaches above."

/-- `self_consistency_prompting(problem, num_samples=3)` (lines 286-338). -/
def self_consistency_prompting (backend : Backend) (problem : String)
    (num_samples : Nat) : Result × List ChatRequest :=
  match sc_calls backend 0 num_samples with
  | (.ok (responses, total), c) =>
    ({ response := sc_report num_samples responses, tokens := total,
       cost := calculate_cost total "gpt-3.5-turbo",
       num_paths := some num_samples },
     List.replicate c (self_consistency_request problem))
  | (.error e, c) =>
    ({ response := "Error in self-consistency prompting: " ++ e,
       tokens := 0, cost := 0 },
     List.replicate c (self_consistency_request problem))

/-! ## Technique Dispatcher (`prompting_techniques`, lines 21-30) -/

/-- The keys of the `self.prompting_techniques` dispatch table, in order. -/
def technique_names : List String :=
  ["Zero-Shot Prompting", "Few-Shot Prompting", "Chain-of-Thought Prompting",
   "Role-Playing Prompting", "Persona-Based Prompting", "ReAct Prompting",
   "Self-Consistency Prompting", "Tree-of-Thoughts Prompting"]

/-! ## Comparison Runner (`compare_techniques`, lines 413-460) -/

/-- One entry of the `comparison_results` dict: a technique's `Result` dict,
or the `{"error": msg}` dict. -/
inductive CompEntry where
  | ok (r : Result)
  | err (msg : String)
  deriving DecidableEq, Repr

/-- What `compare_techniques` returns (lines 454-460). `results` is the
`comparison_results` dict as an insertion-ordered association list. -/
structure CompareOutput where
  prompt : String
  techniques_compared : Nat
  results : List (String × CompEntry)
  total_tokens : Nat
  total_cost : ℚ
  deriving DecidableEq, Repr

/-- The backend oracle advanced past its first `k` calls. -/
def shift (backend : Backend) (k : Nat) : Backend := fun i => backend (k + i)

/-- The per-technique branch of `compare_techniques` (lines 434-445): the
five implemented techniques are invoked with the shared prompt adapted to
their parameter shape; any other (registered) technique yields the fixed
placeholder dict and makes no completion call. -/
def compare_invoke (backend : Backend) (prompt : String) (t : String) :
    Result × List ChatRequest :=
  if t = "Zero-Shot Prompting" then
    zero_shot_prompting backend prompt
  else if t = "Few-Shot Prompting" then
    few_shot_prompting backend ("Translate to French: " ++ prompt) none
  else if t = "Chain-of-Thought Prompting" then
    chain_of_thought_prompting backend prompt
  else if t = "Role-Playing Prompting" then
    role_playing_prompting backend "expert consultant" prompt
  else if t = "Persona-Based Prompting" then
    persona_based_prompting backend "experienced professional" prompt
  else
    ({ response := "Not implemented for comparison", tokens := 0, cost := 0 },
     [])

/-- Python dict assignment `d[k] = v` on an insertion-ordered association
list: overwrites in place when the key exists, otherwise appends. -/
def dict_insert (m : List (String × CompEntry)) (k : String) (v : CompEntry) :
    List (String × CompEntry) :=
  if m.any (fun p => p.1 == k) then
    m.map (fun p => if p.1 = k then (k, v) else p)
  else m ++ [(k, v)]

/-- The `for technique in techniques` loop of `compare_techniques`
(lines 428-452), threading the completion-call offset, the results dict and
the two running totals. -/
def compare_loop (backend : Backend) (prompt : String) :
    List String → Nat → List (String × CompEntry) → Nat → ℚ →
      List (String × CompEntry) × Nat × ℚ
  | [], _, acc, tt, tc => (acc, tt, tc)
  | t :: ts, off, acc, tt, tc =>
    if technique_names.contains t then
      let (r, reqs) := compare_invoke (shift backend off) prompt t
      compare_loop backend prompt ts (off + reqs.length)
        (dict_insert acc t (.ok r)) (tt + r.tokens) (tc + r.cost)
    else
      compare_loop backend prompt ts off
        (dict_insert acc t (.err "Technique not found")) tt tc

/-- `compare_techniques(prompt, techniques)` (lines 413-460), with the
technique list already defaulted (a `None` argument means
`default_compare_list`). -/
def compare_techniques (backend : Backend) (prompt : String)
    (techniques : List String) : CompareOutput :=
  let (res, tt, tc) := compare_loop backend prompt techniques 0 [] 0 0
  { prompt := prompt, techniques_compared := techniques.length,
    results := res, total_tokens := tt, total_cost := round6 tc }

/-- The default technique list of `compare_techniques` (line 422). -/
def default_compare_list : List String :=
  ["Zero-Shot Prompting", "Few-Shot Prompting", "Chain-of-Thought Prompting"]

/-! ## Template Library (`get_prompt_templates` / `use_template`,
lines 462-524) -/

/-- The fixed nested template catalog `get_prompt_templates` returns
(lines 468-500), category ↦ (template name ↦ format string). -/
def prompt_templates : List (String × List (String × String)) :=
  [("Translation",
    [("Simple", "Translate the following text to {language}: {text}"),
     ("Formal", "Provide a formal translation of this text to {language}, maintaining professional tone: {text}"),
     ("Context", "Translate this {context} text to {language}: {text}")]),
   ("Summarization",
    [("Brief", "Summarize this in 2-3 sentences: {text}"),
     ("Bullet Points", "Summarize the key points as a bullet list: {text}"),
     ("Executive", "Provide an executive summary highlighting main insights: {text}")]),
   ("Code",
    [("Explain", "Explain what this code does in simple terms: {code}"),
     ("Debug", "Find and explain the bug in this code: {code}"),
     ("Optimize", "Suggest optimizations for this code: {code}"),
     ("Convert", "Convert this code from {from_lang} to {to_lang}: {code}")]),
   ("Creative Writing",
    [("Story", "Write a {length} story about {topic} in the style of {style}"),
     ("Poem", "Write a {type} poem about {topic}"),
     ("Dialogue", "Write a dialogue between {character1} and {character2} about {topic}")]),
   ("Analysis",
    [("Pros and Cons", "Analyze the pros and cons of {topic}"),
     ("Compare", "Compare and contrast {item1} and {item2}"),
     ("SWOT", "Perform a SWOT analysis of {topic}")]),
   ("Business",
    [("Email", "Write a {tone} email about {topic} to {recipient}"),
     ("Proposal", "Draft a business proposal for {project}"),
     ("Report", "Create an executive report on {topic}")])]

/-- A piece of a parsed format string: literal text or a `{name}` field. -/
inductive Seg where
  | lit (s : String)
  | var (name : String)
  deriving DecidableEq, Repr

/-- Parser for the subset of Python format strings the catalog uses.
`parseFmt none cs` scans literal text; `parseFmt (some acc) cs` is inside a
replacement field with the reversed field characters in `acc`.  Adjacent
literal characters merge into one `Seg.lit`.  `none` models a format string
on which `str.format` raises something other than `KeyError` at scan time
(an unmatched `\x7b` or `\x7d` raises `ValueError`); `\x7b\x7b` and
`\x7d\x7d` are the literal-brace escapes. -/
def parseFmt : Option (List Char) → List Char → Option (List Seg)
  | none, [] => some []
  | none, '{' :: '{' :: rest =>
    (parseFmt none rest).map (fun segs => Seg.lit "\x7b" :: segs)
  | none, '}' :: '}' :: rest =>
    (parseFmt none rest).map (fun segs => Seg.lit "\x7d" :: segs)
  | none, '{' :: rest => parseFmt (some []) rest
  | none, '}' :: _ => none
  | none, c :: rest =>
    match parseFmt none rest with
    | some (Seg.lit s :: segs) => some (Seg.lit (String.mk (c :: s.data)) :: segs)
    | some segs => some (Seg.lit (String.mk [c]) :: segs)
    | none => none
  | some _, [] => none
  | some acc, '}' :: rest =>
    (parseFmt none rest).map (fun segs => Seg.var (String.mk acc.reverse) :: segs)
  | some _, '{' :: _ => none
  | some acc, c :: rest => parseFmt (some (c :: acc)) rest

/-- Whether a replacement-field name is a plain mapping key for `**kwargs`:
on such a field the only exception `str.format` can raise is
`KeyError(name)`.  An empty or all-digit field is positional (`IndexError`
when only keyword arguments are given); `.` or `[` starts attribute or
index access; `!` and `:` start a conversion or format spec. -/
def plainVar (s : String) : Bool :=
  !s.data.isEmpty &&
  !s.data.all (fun c => c.isDigit) &&
  s.data.all (fun c =>
    c != '.' && c != '[' && c != ']' && c != '!' && c != ':')

/-- The field names a parsed template references, in order. -/
def segVars (segs : List Seg) : List String :=
  segs.filterMap (fun s => match s with | .var n => some n | .lit _ => none)

/-- How `str.format(**values)` can fail on the catalog's templates. -/
inductive FmtError where
  | missingKey (name : String)
  | other
  deriving DecidableEq, Repr

/-- `str.format(**values)` on a parsed template: substitutes each field
left to right, failing with `missingKey` at the first field whose name has
no supplied value (Python's `KeyError`) and with `other` at a field that is
not a plain mapping key. -/
def formatSegs (values : List (String × String)) : List Seg → Except FmtError String
  | [] => .ok ""
  | Seg.lit s :: rest => (formatSegs values rest).map (fun t => s ++ t)
  | Seg.var n :: rest =>
    if plainVar n then
      match values.lookup n with
      | some v => (formatSegs values rest).map (fun t => v ++ t)
      | none => .error (.missingKey n)
    else .error .other

/-- The four return branches of `use_template` plus the possibility of an
uncaught exception (`raised`: `template.format` raising something other
than the `KeyError` the code catches). -/
inductive UseOutcome where
  | filled (s : String)
  | categoryNotFound (category : String)
  | templateNotFound (category template_name : String)
  | missingVariable (name : String)
  | raised
  deriving DecidableEq, Repr

/-- `use_template(category, template_name, **kwargs)` (lines 502-524), with
the outcome left symbolic: which of the code's return branches is taken. -/
def use_template_core (category template_name : String)
    (values : List (String × String)) : UseOutcome :=
  match prompt_templates.lookup category with
  | none => .categoryNotFound category
  | some cat =>
    match cat.lookup template_name with
    | none => .templateNotFound category template_name
    | some tmpl =>
      match parseFmt none tmpl.data with
      | none => .raised
      | some segs =>
        match formatSegs values segs with
        | .ok s => .filled s
        | .error (.missingKey n) => .missingVariable n
        | .error .other => .raised

/-- `use_template` as the caller sees it: the returned string (every branch
of the source returns a string), or `none` when an exception propagates.
The error strings are the source's literal messages; `str(KeyError(n))`
renders as `n` in single quotes. -/
def use_template (category template_name : String)
    (values : List (String × String)) : Option String :=
  match use_template_core category template_name values with
  | .filled s => some s
  | .categoryNotFound c => some ("Category '" ++ c ++ "' not found")
  | .templateNotFound c n =>
    some ("Template '" ++ n ++ "' not found in category '" ++ c ++ "'")
  | .missingVariable n => some ("Missing variable: '" ++ n ++ "'")
  | .raised => none

/-- The full left-to-right substitution of a parsed template: each literal
kept, each field replaced by its supplied value. -/
def renderSegs (values : List (String × String)) : List Seg → String
  | [] => ""
  | Seg.lit s :: rest => s ++ renderSegs values rest
  | Seg.var n :: rest => ((values.lookup n).getD "") ++ renderSegs values rest

/-- No brace character anywhere in the string. -/
def noBrace (s : String) : Bool :=
  s.data.all (fun c => c != '{' && c != '}')

/-- A parsed segment is benign: literal text without braces, or a plain
mapping-key field. -/
def seg_ok : Seg → Bool
  | .lit s => noBrace s
  | .var n => plainVar n

/-- A catalog format string is benign: it parses, its literals are
brace-free and all its fields are plain mapping keys. -/
def template_ok (t : String) : Bool :=
  match parseFmt none t.data with
  | some segs => segs.all seg_ok
  | none => false

/-! ## Demonstration Recorder (`run_demonstration`, lines 526-551) -/

/-- The keyword arguments a `run_demonstration` call forwards to the
technique operation; a field is `none` when the keyword is not passed. -/
structure Kwargs where
  prompt : Option String := none
  examples : Option (List (String × String)) := none
  problem : Option String := none
  role : Option String := none
  task : Option String := none
  persona : Option String := none
  query : Option String := none
  num_samples : Option Nat := none
  deriving DecidableEq, Repr

/-- `self.prompting_techniques[technique](**kwargs)` (line 537): dispatch
through the table.  `none` models the `TypeError` Python raises when the
passed keywords do not fit the operation's signature (a required parameter
missing or an unexpected keyword); that exception is not caught in
`run_demonstration`. -/
def dispatch_technique (backend : Backend) (t : String) (k : Kwargs) :
    Option (Result × List ChatRequest) :=
  if t = "Zero-Shot Prompting" then
    match k with
    | ⟨some p, none, none, none, none, none, none, none⟩ =>
      some (zero_shot_prompting backend p)
    | _ => none
  else if t = "Few-Shot Prompting" then
    match k with
    | ⟨some p, ex, none, none, none, none, none, none⟩ =>
      some (few_shot_prompting backend p ex)
    | _ => none
  else if t = "Chain-of-Thought Prompting" then
    match k with
    | ⟨none, none, some pr, none, none, none, none, none⟩ =>
      some (chain_of_thought_prompting backend pr)
    | _ => none
  else if t = "Role-Playing Prompting" then
    match k with
    | ⟨none, none, none, some r, some ta, none, none, none⟩ =>
      some (role_playing_prompting backend r ta)
    | _ => none
  else if t = "Persona-Based Prompting" then
    match k with
    | ⟨none, none, none, none, none, some pe, some q, none⟩ =>
      some (persona_based_prompting backend pe q)
    | _ => none
  else if t = "ReAct Prompting" then
    match k with
    | ⟨none, none, none, none, some ta, none, none, none⟩ =>
      some (react_prompting backend ta)
    | _ => none
  else if t = "Self-Consistency Prompting" then
    match k with
    | ⟨none, none, some pr, none, none, none, none, ns⟩ =>
      some (self_consistency_prompting backend pr (ns.getD 3))
    | _ => none
  else if t = "Tree-of-Thoughts Prompting" then
    match k with
    | ⟨none, none, some pr, none, none, none, none, none⟩ =>
      some (tree_of_thoughts_prompting backend pr)
    | _ => none
  else none

/-- What `run_demonstration` gives back to its caller: the assembled
`demo_data` dict, the `{"error": msg}` dict for an unknown technique, or an
uncaught exception. -/
inductive DemoOutcome where
  | saved (technique : String) (input : Kwargs) (output : Result)
  | unknownTechnique (msg : String)
  | raised
  deriving DecidableEq, Repr

/-- One JSON file written under `outputs/` (lines 546-549). -/
structure FileWrite where
  path : String
  technique : String
  input : Kwargs
  output : Result
  deriving DecidableEq, Repr

/-- The output path `run_demonstration` derives from the technique name
(line 547): lower-cased, spaces to underscores, fixed suffix. -/
def demo_filename (technique : String) : String :=
  "outputs/" ++ ((technique.toLower).replace " " "_") ++ "_demo.json"

/-- `run_demonstration(technique, **kwargs)` (lines 526-551): the outcome,
the file writes performed, and the number of completion calls made. -/
def run_demonstration (backend : Backend) (technique : String) (k : Kwargs) :
    DemoOutcome × List FileWrite × Nat :=
  if technique_names.contains technique then
    match dispatch_technique backend technique k with
    | none => (.raised, [], 0)
    | some (result, reqs) =>
      (.saved technique k result,
       [⟨demo_filename technique, technique, k, result⟩], reqs.length)
  else
    (.unknownTechnique ("Technique " ++ technique ++ " not found"), [], 0)

/-- The entry `compare_techniques` files under a requested technique name
`t` when the loop reaches it with the given (shifted) backend: the invoked
`Result` for a registered name, the error dict otherwise. -/
def technique_entry (backend : Backend) (prompt : String) (t : String) :
    CompEntry :=
  if technique_names.contains t then .ok (compare_invoke backend prompt t).1
  else .err "Technique not found"

/-! ## Concrete oracles used to instantiate the theorems -/

/-- A backend whose every call raises an exception rendered as `"boom"`. -/
def failingBackend : Backend := fun _ => .error "boom"

/-- A backend whose every call succeeds with text `"OK"` and 10 tokens. -/
def okBackend : Backend := fun _ => .ok ("OK", 10)

/-! ## Helper lemmas -/

/-- A successful association-list lookup comes from a member pair. -/
theorem lookup_mem {β : Type} {l : List (String × β)} {a : String} {b : β}
    (h : l.lookup a = some b) : (a, b) ∈ l := by
  induction l with
  | nil => simp [List.lookup] at h
  | cons hd tl ih =>
    rw [List.lookup] at h
    by_cases hab : a == hd.1
    · rw [hab] at h
      simp only [Option.some.injEq] at h
      have : a = hd.1 := by simpa using hab
      subst this
      subst h
      exact List.mem_cons_self _ _
    · rw [Bool.of_not_eq_true hab] at h
      exact List.mem_cons_of_mem _ (ih h)

/-- Rounding to 6 decimals is exact on an integer number of millionths. -/
theorem round6_int_div (k : ℤ) :
    round6 ((k : ℚ) / 1000000) = (k : ℚ) / 1000000 := by
  have h : ((k : ℚ) / 1000000) * 1000000 = (k : ℚ) :=
    div_mul_cancel₀ _ (by norm_num)
  rw [round6, pyRound, h, Int.floor_intCast]
  have h2 : (k : ℚ) - (k : ℚ) = 0 := by ring
  rw [h2]
  norm_num

/-- Closed forms of `calculate_cost` for the three models of the price
table: the rounding step is exact, so the cost is the token count times the
average rate, divided by one million. -/
theorem calculate_cost_closed (t : Nat) :
    calculate_cost t "gpt-3.5-turbo" = (t : ℚ) * 1 / 1000000 ∧
    calculate_cost t "gpt-4" = (t : ℚ) * 45 / 1000000 ∧
    calculate_cost t "gpt-4-turbo" = (t : ℚ) * 20 / 1000000 := by
  refine ⟨?_, ?_, ?_⟩
  · have hl : pricing.lookup "gpt-3.5-turbo" = some (0.50, 1.50) := rfl
    rw [calculate_cost, hl]
    show round6 (((t : ℚ) / 1000000) * (((0.50 : ℚ) + 1.50) / 2)) = _
    have h : ((t : ℚ) / 1000000) * (((0.50 : ℚ) + 1.50) / 2)
        = ((1 * t : ℤ) : ℚ) / 1000000 := by push_cast; ring_nf
    rw [h, round6_int_div]
    push_cast; ring
  · have hl : pricing.lookup "gpt-4" = some (30.00, 60.00) := rfl
    rw [calculate_cost, hl]
    show round6 (((t : ℚ) / 1000000) * (((30.00 : ℚ) + 60.00) / 2)) = _
    have h : ((t : ℚ) / 1000000) * (((30.00 : ℚ) + 60.00) / 2)
        = ((45 * t : ℤ) : ℚ) / 1000000 := by push_cast; ring_nf
    rw [h, round6_int_div]
    push_cast; ring
  · have hl : pricing.lookup "gpt-4-turbo" = some (10.00, 30.00) := rfl
    rw [calculate_cost, hl]
    show round6 (((t : ℚ) / 1000000) * (((10.00 : ℚ) + 30.00) / 2)) = _
    have h : ((t : ℚ) / 1000000) * (((10.00 : ℚ) + 30.00) / 2)
        = ((20 * t : ℤ) : ℚ) / 1000000 := by push_cast; ring_nf
    rw [h, round6_int_div]
    push_cast; ring

/-- The average rates of the three table models. -/
theorem avgRate_closed :
    avgRate "gpt-3.5-turbo" = 1 ∧ avgRate "gpt-4" = 45 ∧
    avgRate "gpt-4-turbo" = 20 := by
  refine ⟨?_, ?_, ?_⟩
  · have hl : pricing.lookup "gpt-3.5-turbo" = some (0.50, 1.50) := rfl
    rw [avgRate, hl]; norm_num
  · have hl : pricing.lookup "gpt-4" = some (30.00, 60.00) := rfl
    rw [avgRate, hl]; norm_num
  · have hl : pricing.lookup "gpt-4-turbo" = some (10.00, 30.00) := rfl
    rw [avgRate, hl]; norm_num

/-- C4: for every token count `t` and model in the price table,
`calculate_cost` is the deterministic function `t * avgRate / 1_000_000` —
`(t / 1_000_000)` times the average of the model's input and output rates,
on which rounding to 6 decimal places is exact — hence non-negative,
additive (linear) in `t` and zero at zero; and
`calculate_cost 1_000_000 "gpt-3.5-turbo" = 1`. -/
theorem C4_cost_deterministic_linear (t : Nat) (model : String)
    (h : model ∈ ["gpt-3.5-turbo", "gpt-4", "gpt-4-turbo"]) :
    calculate_cost t model = (t : ℚ) * avgRate model / 1000000 ∧
    0 ≤ calculate_cost t model ∧
    calculate_cost 0 model = 0 ∧
    (∀ s : Nat, calculate_cost (s + t) model
        = calculate_cost s model + calculate_cost t model) ∧
    calculate_cost 1000000 "gpt-3.5-turbo" = 1 := by
  have hc := calculate_cost_closed
  have ha := avgRate_closed
  have hE : calculate_cost 1000000 "gpt-3.5-turbo" = 1 := by
    rw [(hc 1000000).1]; norm_num
  fin_cases h
  · refine ⟨?_, ?_, ?_, ?_, hE⟩
    · rw [(hc t).1, ha.1]
    · rw [(hc t).1]; positivity
    · rw [(hc 0).1]; norm_num
    · intro s; rw [(hc (s + t)).1, (hc s).1, (hc t).1]; push_cast; ring
  · refine ⟨?_, ?_, ?_, ?_, hE⟩
    · rw [(hc t).2.1, ha.2.1]
    · rw [(hc t).2.1]; positivity
    · rw [(hc 0).2.1]; norm_num
    · intro s; rw [(hc (s + t)).2.1, (hc s).2.1, (hc t).2.1]; push_cast; ring
  · refine ⟨?_, ?_, ?_, ?_, hE⟩
    · rw [(hc t).2.2, ha.2.2]
    · rw [(hc t).2.2]; positivity
    · rw [(hc 0).2.2]; norm_num
    · intro s; rw [(hc (s + t)).2.2, (hc s).2.2, (hc t).2.2]; push_cast; ring

/-- C4 witness: the theorem applied at `t = 3`, `model = "gpt-4"`. -/
theorem C4_witness :
    calculate_cost 3 "gpt-4" = (3 : ℚ) * avgRate "gpt-4" / 1000000 ∧
    calculate_cost 1000000 "gpt-3.5-turbo" = 1 := by
  have h := C4_cost_deterministic_linear 3 "gpt-4" (by simp)
  exact ⟨h.1, h.2.2.2.2⟩

/-- C9: for every token count and every model absent from the price table,
`calculate_cost` does not raise (it is a total function into `ℚ`) and
falls back to the default rate: `(t / 1_000_000) * 1.00` rounded to 6
decimal places, which is exactly `t / 1_000_000`. -/
theorem C9_cost_unknown_model_default (t : Nat) (model : String)
    (h : pricing.lookup model = none) :
    calculate_cost t model = round6 (((t : ℚ) / 1000000) * 1.00) ∧
    calculate_cost t model = (t : ℚ) / 1000000 ∧
    0 ≤ calculate_cost t model := by
  have h1 : calculate_cost t model = round6 (((t : ℚ) / 1000000) * 1.00) := by
    rw [calculate_cost, h]
  have h2 : calculate_cost t model = (t : ℚ) / 1000000 := by
    rw [h1]
    have he : ((t : ℚ) / 1000000) * 1.00 = ((t : ℤ) : ℚ) / 1000000 := by
      push_cast; ring_nf
    rw [he, round6_int_div]
    push_cast; ring
  refine ⟨h1, h2, ?_⟩
  rw [h2]; positivity

/-- C9 witness: the unknown model `"claude-3"` at `t = 7`. -/
theorem C9_witness :
    calculate_cost 7 "claude-3" = (7 : ℚ) / 1000000 :=
  (C9_cost_unknown_model_default 7 "claude-3" (by decide)).2.1

/-- The self-consistency loop propagates the first backend exception: if
the calls before `j` succeed and call `j` raises `m`, the loop's outcome is
`.error m`. -/
theorem sc_calls_first_error (backend : Backend) (m : String) :
    ∀ (j n start : Nat), j < n →
      (∀ i, i < j → ∃ v, backend (start + i) = .ok v) →
      backend (start + j) = .error m →
      (sc_calls backend start n).1 = .error m := by
  intro j
  induction j with
  | zero =>
    intro n start hn _ herr
    obtain ⟨n', rfl⟩ : ∃ n', n = n' + 1 := ⟨n - 1, by omega⟩
    rw [Nat.add_zero] at herr
    simp [sc_calls, herr]
  | succ j ih =>
    intro n start hn hok herr
    obtain ⟨n', rfl⟩ : ∃ n', n = n' + 1 := ⟨n - 1, by omega⟩
    obtain ⟨⟨content, toks⟩, hv⟩ := hok 0 (Nat.succ_pos j)
    rw [Nat.add_zero] at hv
    have hok' : ∀ i, i < j → ∃ v, backend (start + 1 + i) = .ok v := by
      intro i hi
      have hidx : start + 1 + i = start + (i + 1) := by omega
      rw [hidx]
      exact hok (i + 1) (by omega)
    have herr' : backend (start + 1 + j) = .error m := by
      have hidx : start + 1 + j = start + (j + 1) := by omega
      rw [hidx]; exact herr
    have htail := ih n' (start + 1) (by omega) hok' herr'
    rcases hp : sc_calls backend (start + 1) n' with ⟨res, c⟩
    rw [hp] at htail
    simp only at htail
    subst htail
    simp [sc_calls, hv, hp]

/-- C1: on backend failure, every one of the eight technique operations
swallows the exception and returns a `Result` whose text is the fixed
human-readable message naming the technique followed by `str(e)`, with zero
tokens and zero cost — no exception reaches the caller (each operation is a
total function into `Result`).  For self-consistency the failure may occur
at any call `j < n` after `j` successes. -/
theorem C1_backend_failure_swallowed (backend : Backend) (m : String)
    (h : backend 0 = .error m)
    (prompt problem role task persona query : String)
    (examples : Option (List (String × String))) :
    (zero_shot_prompting backend prompt).1
      = ⟨"Error in zero-shot prompting: " ++ m, 0, 0, none⟩ ∧
    (few_shot_prompting backend prompt examples).1
      = ⟨"Error in few-shot prompting: " ++ m, 0, 0, none⟩ ∧
    (chain_of_thought_prompting backend problem).1
      = ⟨"Error in chain-of-thought prompting: " ++ m, 0, 0, none⟩ ∧
    (role_playing_prompting backend role task).1
      = ⟨"Error in role-playing prompting: " ++ m, 0, 0, none⟩ ∧
    (persona_based_prompting backend persona query).1
      = ⟨"Error in persona-based prompting: " ++ m, 0, 0, none⟩ ∧
    (react_prompting backend task).1
      = ⟨"Error in ReAct prompting: " ++ m, 0, 0, none⟩ ∧
    (tree_of_thoughts_prompting backend problem).1
      = ⟨"Error in Tree-of-Thoughts prompting: " ++ m, 0, 0, none⟩ ∧
    (∀ (backend2 : Backend) (n j : Nat) (m2 : String), j < n →
      (∀ i, i < j → ∃ v, backend2 i = .ok v) → backend2 j = .error m2 →
      (self_consistency_prompting backend2 problem n).1
        = ⟨"Error in self-consistency prompting: " ++ m2, 0, 0, none⟩) := by
  refine ⟨?_, ?_, ?_, ?_, ?_, ?_, ?_, ?_⟩
  · simp [zero_shot_prompting, single_call, h]
  · simp [few_shot_prompting, single_call, h]
  · simp [chain_of_thought_prompting, single_call, h]
  · simp [role_playing_prompting, single_call, h]
  · simp [persona_based_prompting, single_call, h]
  · simp [react_prompting, single_call, h]
  · simp [tree_of_thoughts_prompting, single_call, h]
  · intro backend2 n j m2 hj hok herr
    have hfst := sc_calls_first_error backend2 m2 j n 0 hj
      (by intro i hi; simpa using hok i hi) (by simpa using herr)
    rcases hp : sc_calls backend2 0 n with ⟨res, c⟩
    rw [hp] at hfst
    simp only at hfst
    subst hfst
    simp [self_consistency_prompting, hp]

/-- C1 witness: every call of `failingBackend` raises `"boom"`; zero-shot
and self-consistency (3 samples, failure at the first call) both return the
error `Result` with zero tokens and zero cost. -/
theorem C1_witness :
    (zero_shot_prompting failingBackend "hi").1
      = ⟨"Error in zero-shot prompting: " ++ "boom", 0, 0, none⟩ ∧
    (self_consistency_prompting failingBackend "p" 3).1
      = ⟨"Error in self-consistency prompting: " ++ "boom", 0, 0, none⟩ := by
  have h := C1_backend_failure_swallowed failingBackend "boom" rfl
    "hi" "p" "r" "t" "pe" "q" none
  exact ⟨h.1, h.2.2.2.2.2.2.2 failingBackend 3 0 "boom" (by decide)
    (fun i hi => absurd hi (Nat.not_lt_zero i)) rfl⟩

/-- C7: invoking an unknown technique name through `run_demonstration`
returns the `{"error": "Technique ... not found"}` dict before anything
else happens: no demonstration record is written and no completion call is
attempted. -/
theorem C7_unknown_technique_no_side_effects (backend : Backend)
    (technique : String) (k : Kwargs)
    (h : technique_names.contains technique = false) :
    run_demonstration backend technique k
      = (.unknownTechnique ("Technique " ++ technique ++ " not found"),
         [], 0) := by
  rw [run_demonstration, if_neg (by rw [h]; exact Bool.false_ne_true)]

/-- C7 witness: the unknown name `"NoSuchTechnique"`. -/
theorem C7_witness :
    run_demonstration failingBackend "NoSuchTechnique" {}
      = (.unknownTechnique ("Technique " ++ "NoSuchTechnique" ++ " not found"),
         [], 0) :=
  C7_unknown_technique_no_side_effects failingBackend "NoSuchTechnique" {}
    (by decide)

/-- The self-consistency loop on an all-successful backend: all `n`
responses in order, their summed token usage, and exactly `n` calls. -/
theorem sc_calls_all_ok (backend : Backend) (texts : Nat → String)
    (toks : Nat → Nat) :
    ∀ (n start : Nat),
      (∀ i, i < n → backend (start + i) = .ok (texts (start + i), toks (start + i))) →
      sc_calls backend start n
        = (.ok ((List.range n).map (fun i => texts (start + i)),
                ∑ i in Finset.range n, toks (start + i)), n) := by
  intro n
  induction n with
  | zero => intro start _; simp [sc_calls]
  | succ n ih =>
    intro start hok
    have h0 := hok 0 (Nat.succ_pos n)
    rw [Nat.add_zero] at h0
    have htail := ih (start + 1) (fun i hi => by
      have hidx : start + 1 + i = start + (i + 1) := by omega
      rw [hidx]; exact hok (i + 1) (by omega))
    have hlist : (List.range (n + 1)).map (fun i => texts (start + i))
        = texts start :: (List.range n).map (fun i => texts (start + 1 + i)) := by
      rw [List.range_succ_eq_map, List.map_cons, List.map_map]
      have hfun : ((fun i => texts (start + i)) ∘ Nat.succ)
          = fun i => texts (start + 1 + i) := by
        funext i; simp [Function.comp]; congr 1; omega
      rw [hfun, Nat.add_zero]
    have hsum : ∑ i in Finset.range (n + 1), toks (start + i)
        = toks start + ∑ i in Finset.range n, toks (start + 1 + i) := by
      rw [Finset.sum_range_succ']
      have hfun : (fun i => toks (start + (i + 1)))
          = fun i => toks (start + 1 + i) := by
        funext i; congr 1; omega
      simp only [hfun, Nat.add_zero]
      omega
    simp [sc_calls, h0, htail, hlist, hsum]

/-- C5: when every one of the `n` completion calls succeeds, the
self-consistency operation issues exactly `n` requests, returns a `Result`
whose token count is the sum of the `n` individual usage counts, whose
response is the labeled report concatenating the `n` generated texts in
order, and which records `n` reasoning paths. -/
theorem C5_self_consistency_aggregates (backend : Backend) (problem : String)
    (n : Nat) (texts : Nat → String) (toks : Nat → Nat) (hn : 0 < n)
    (hok : ∀ i, i < n → backend i = .ok (texts i, toks i)) :
    (self_consistency_prompting backend problem n).2.length = n ∧
    (self_consistency_prompting backend problem n).1.tokens
      = ∑ i in Finset.range n, toks i ∧
    (self_consistency_prompting backend problem n).1.response
      = sc_report n ((List.range n).map texts) ∧
    (self_consistency_prompting backend problem n).1.num_paths = some n := by
  have hcalls := sc_calls_all_ok backend texts toks n 0
    (fun i hi => by simpa using hok i hi)
  simp only [Nat.zero_add] at hcalls
  simp [self_consistency_prompting, hcalls]

/-- C5 witness: two all-successful calls of 10 tokens each. -/
theorem C5_witness :
    (self_consistency_prompting okBackend "p" 2).2.length = 2 ∧
    (self_consistency_prompting okBackend "p" 2).1.tokens = 20 := by
  have h := C5_self_consistency_aggregates okBackend "p" 2
    (fun _ => "OK") (fun _ => 10) (by decide) (fun i _ => rfl)
  refine ⟨h.1, ?_⟩
  rw [h.2.1]
  simp [Finset.sum_range_succ]

/-- Every format string of the catalog parses, with brace-free literals
and plain mapping-key fields. -/
theorem catalog_ok :
    prompt_templates.all (fun p => p.2.all (fun q => template_ok q.2))
      = true := by decide

/-- A template reached through the two catalog lookups is benign. -/
theorem catalog_template_ok {c tn : String} {cat : List (String × String)}
    {tmpl : String} (hc : prompt_templates.lookup c = some cat)
    (ht : cat.lookup tn = some tmpl) : template_ok tmpl = true := by
  have h1 := lookup_mem hc
  have h2 := lookup_mem ht
  have hall := catalog_ok
  rw [List.all_eq_true] at hall
  have hcat := hall _ h1
  rw [List.all_eq_true] at hcat
  exact hcat _ h2

/-- Unpacking `template_ok`: the parse succeeds and every segment is
benign. -/
theorem template_ok_segs {tmpl : String} (h : template_ok tmpl = true) :
    ∃ segs, parseFmt none tmpl.data = some segs ∧ segs.all seg_ok = true := by
  unfold template_ok at h
  cases hp : parseFmt none tmpl.data with
  | none => rw [hp] at h; cases h
  | some segs => rw [hp] at h; exact ⟨segs, rfl, h⟩

/-- A name listed by `segVars` comes from a `Seg.var` segment. -/
theorem segVars_mem {segs : List Seg} {n : String} (h : n ∈ segVars segs) :
    Seg.var n ∈ segs := by
  rw [segVars, List.mem_filterMap] at h
  obtain ⟨s, hs, hf⟩ := h
  cases s with
  | lit t => cases hf
  | var m => cases hf; exact hs

/-- Listing the referenced fields of a literal-headed segment list. -/
theorem segVars_cons_lit (s : String) (tl : List Seg) :
    segVars (Seg.lit s :: tl) = segVars tl := by
  simp [segVars]

/-- Listing the referenced fields of a field-headed segment list. -/
theorem segVars_cons_var (n : String) (tl : List Seg) :
    segVars (Seg.var n :: tl) = n :: segVars tl := by
  simp [segVars]

/-- When some referenced field has no supplied value, `str.format` fails
with the `KeyError` of a referenced, unsupplied field (the leftmost one);
provided every field is a plain mapping key. -/
theorem formatSegs_missing (values : List (String × String)) :
    ∀ segs : List Seg, (∀ n ∈ segVars segs, plainVar n = true) →
      (∃ p ∈ segVars segs, values.lookup p = none) →
      ∃ p, formatSegs values segs = .error (.missingKey p) ∧
        p ∈ segVars segs ∧ values.lookup p = none := by
  intro segs
  induction segs with
  | nil => intro _ hmiss; simp [segVars] at hmiss
  | cons hd tl ih =>
    intro hplain hmiss
    cases hd with
    | lit s =>
      rw [segVars_cons_lit] at hplain hmiss
      obtain ⟨p, hfmt, hmem, hnone⟩ := ih hplain hmiss
      refine ⟨p, ?_, by rw [segVars_cons_lit]; exact hmem, hnone⟩
      simp [formatSegs, hfmt, Except.map]
    | var n =>
      rw [segVars_cons_var] at hplain hmiss
      have hpn : plainVar n = true := hplain n (List.mem_cons_self _ _)
      cases hv : values.lookup n with
      | none =>
        refine ⟨n, by simp [formatSegs, hpn, hv], ?_, hv⟩
        rw [segVars_cons_var]; exact List.mem_cons_self _ _
      | some v =>
        obtain ⟨p, hpmem, hpnone⟩ := hmiss
        have hpmem2 : p ∈ segVars tl := by
          rcases List.mem_cons.mp hpmem with rfl | hm
          · rw [hv] at hpnone; cases hpnone
          · exact hm
        obtain ⟨q, hfmt, hqmem, hqnone⟩ :=
          ih (fun x hx => hplain x (List.mem_cons_of_mem _ hx))
            ⟨p, hpmem2, hpnone⟩
        refine ⟨q, ?_, ?_, hqnone⟩
        · simp [formatSegs, hpn, hv, hfmt, Except.map]
        · rw [segVars_cons_var]; exact List.mem_cons_of_mem _ hqmem

/-- When every referenced field has a supplied value, `str.format` returns
the full left-to-right substitution; provided every field is a plain
mapping key. -/
theorem formatSegs_complete (values : List (String × String)) :
    ∀ segs : List Seg, (∀ n ∈ segVars segs, plainVar n = true) →
      (∀ p ∈ segVars segs, (values.lookup p).isSome = true) →
      formatSegs values segs = .ok (renderSegs values segs) := by
  intro segs
  induction segs with
  | nil => intro _ _; rfl
  | cons hd tl ih =>
    intro hplain hall
    cases hd with
    | lit s =>
      rw [segVars_cons_lit] at hplain hall
      simp [formatSegs, renderSegs, ih hplain hall, Except.map]
    | var n =>
      rw [segVars_cons_var] at hplain hall
      have hpn : plainVar n = true := hplain n (List.mem_cons_self _ _)
      have hsome := hall n (List.mem_cons_self _ _)
      cases hv : values.lookup n with
      | none => rw [hv] at hsome; cases hsome
      | some v =>
        have htl := ih (fun x hx => hplain x (List.mem_cons_of_mem _ hx))
          (fun x hx => hall x (List.mem_cons_of_mem _ hx))
        simp [formatSegs, renderSegs, hpn, hv, htl, Except.map]

/-- On benign segments `str.format` either succeeds or raises exactly a
`KeyError`: never anything else. -/
theorem formatSegs_shape (values : List (String × String)) :
    ∀ segs : List Seg, segs.all seg_ok = true →
      (∃ st, formatSegs values segs = .ok st) ∨
      (∃ p, formatSegs values segs = .error (.missingKey p)) := by
  intro segs
  induction segs with
  | nil => intro _; exact Or.inl ⟨"", rfl⟩
  | cons hd tl ih =>
    intro hok
    rw [List.all_cons, Bool.and_eq_true] at hok
    cases hd with
    | lit s =>
      rcases ih hok.2 with ⟨st, hst⟩ | ⟨p, hp⟩
      · exact Or.inl ⟨s ++ st, by simp [formatSegs, hst, Except.map]⟩
      · exact Or.inr ⟨p, by simp [formatSegs, hp, Except.map]⟩
    | var n =>
      have hpn : plainVar n = true := hok.1
      cases hv : values.lookup n with
      | none => exact Or.inr ⟨n, by simp [formatSegs, hpn, hv]⟩
      | some v =>
        rcases ih hok.2 with ⟨st, hst⟩ | ⟨p, hp⟩
        · exact Or.inl ⟨v ++ st, by simp [formatSegs, hpn, hv, hst, Except.map]⟩
        · exact Or.inr ⟨p, by simp [formatSegs, hpn, hv, hp, Except.map]⟩

/-- The full substitution of benign segments contains no brace character
when no supplied value contains one. -/
theorem renderSegs_noBrace (values : List (String × String))
    (hv : ∀ pv ∈ values, noBrace pv.2 = true) :
    ∀ segs : List Seg, segs.all seg_ok = true →
      noBrace (renderSegs values segs) = true := by
  intro segs
  induction segs with
  | nil => intro _; rfl
  | cons hd tl ih =>
    intro hok
    rw [List.all_cons, Bool.and_eq_true] at hok
    have hnb : ∀ a b : String, noBrace a = true → noBrace b = true →
        noBrace (a ++ b) = true := by
      intro a b ha hb
      rw [noBrace] at ha hb
      rw [noBrace, String.data_append, List.all_append, ha, hb]
      rfl
    cases hd with
    | lit s =>
      exact hnb s _ hok.1 (ih hok.2)
    | var n =>
      refine hnb _ _ ?_ (ih hok.2)
      cases hlp : values.lookup n with
      | none => decide
      | some v => exact hv _ (lookup_mem hlp)

/-- C3: `use_template` fails on the category-not-found branch when the
category is absent from the catalog, on the template-not-found branch when
the name is absent from the category, and on the missing-variable branch —
naming a referenced placeholder that has no supplied value — when such a
placeholder exists; each failure is a distinct branch of `UseOutcome`,
rendered by `use_template` as the source's distinct error message. -/
theorem C3_template_fill_failures (category template_name : String)
    (values : List (String × String)) :
    (prompt_templates.lookup category = none →
      use_template_core category template_name values
        = .categoryNotFound category) ∧
    (∀ cat, prompt_templates.lookup category = some cat →
      cat.lookup template_name = none →
      use_template_core category template_name values
        = .templateNotFound category template_name) ∧
    (∀ cat tmpl segs, prompt_templates.lookup category = some cat →
      cat.lookup template_name = some tmpl →
      parseFmt none tmpl.data = some segs →
      (∃ p ∈ segVars segs, values.lookup p = none) →
      ∃ p, use_template_core category template_name values
          = .missingVariable p ∧ p ∈ segVars segs ∧
        values.lookup p = none) := by
  refine ⟨?_, ?_, ?_⟩
  · intro hc
    simp only [use_template_core, hc]
  · intro cat hc ht
    simp only [use_template_core, hc, ht]
  · intro cat tmpl segs hc ht hp hmiss
    obtain ⟨segs2, hp2, hall⟩ := template_ok_segs (catalog_template_ok hc ht)
    rw [hp] at hp2
    injection hp2 with hp2
    subst hp2
    have hplain : ∀ n ∈ segVars segs, plainVar n = true := by
      intro n hn
      have hseg : Seg.var n ∈ segs := segVars_mem hn
      rw [List.all_eq_true] at hall
      exact hall _ hseg
    obtain ⟨p, hfmt, hmem, hnone⟩ := formatSegs_missing values segs hplain hmiss
    refine ⟨p, ?_, hmem, hnone⟩
    simp only [use_template_core, hc, ht, hp, hfmt]

/-- C3 witness: an absent category, an absent template name, and the
`"text"` placeholder left unsupplied on `Translation/Simple`. -/
theorem C3_witness :
    use_template_core "Nope" "Simple" [] = .categoryNotFound "Nope" ∧
    use_template_core "Translation" "Missing" []
      = .templateNotFound "Translation" "Missing" ∧
    use_template_core "Translation" "Simple" [("language", "French")]
      = .missingVariable "text" := by
  refine ⟨(C3_template_fill_failures "Nope" "Simple" []).1 (by decide),
    (C3_template_fill_failures "Translation" "Missing" []).2.1
      [("Simple", "Translate the following text to {language}: {text}"),
       ("Formal", "Provide a formal translation of this text to {language}, maintaining professional tone: {text}"),
       ("Context", "Translate this {context} text to {language}: {text}")]
      (by decide) (by decide), ?_⟩
  obtain ⟨p, hp, hmem, hnone⟩ :=
    (C3_template_fill_failures "Translation" "Simple"
        [("language", "French")]).2.2
      [("Simple", "Translate the following text to {language}: {text}"),
       ("Formal", "Provide a formal translation of this text to {language}, maintaining professional tone: {text}"),
       ("Context", "Translate this {context} text to {language}: {text}")]
      "Translate the following text to {language}: {text}"
      [Seg.lit "Translate the following text to ", Seg.var "language",
       Seg.lit ": ", Seg.var "text"]
      (by decide) (by decide) (by decide) ⟨"text", by decide, by decide⟩
  have hvars : segVars [Seg.lit "Translate the following text to ",
      Seg.var "language", Seg.lit ": ", Seg.var "text"]
      = ["language", "text"] := by decide
  rw [hvars] at hmem
  rcases List.mem_cons.mp hmem with rfl | hm
  · exact absurd hnone (by decide)
  · rcases List.mem_cons.mp hm with rfl | hm2
    · exact hp
    · cases hm2

/-- C8: filling any catalog template with a value for every referenced
placeholder succeeds and returns the literal substituted string (every
placeholder replaced by its supplied value, literal text kept); no
placeholder of the template remains, and — since the catalog's literal
text is brace-free — the result contains no brace characters whenever the
supplied values contain none.  In particular
`fill("Translation", "Simple", language="French", text="Hello")` returns
`"Translate the following text to French: Hello"`. -/
theorem C8_template_fill_complete (category template_name : String)
    (cat : List (String × String)) (tmpl : String)
    (values : List (String × String)) (segs : List Seg)
    (hc : prompt_templates.lookup category = some cat)
    (ht : cat.lookup template_name = some tmpl)
    (hp : parseFmt none tmpl.data = some segs)
    (hall : ∀ p ∈ segVars segs, (values.lookup p).isSome = true) :
    use_template_core category template_name values
      = .filled (renderSegs values segs) ∧
    ((∀ pv ∈ values, noBrace pv.2 = true) →
      noBrace (renderSegs values segs) = true) ∧
    use_template_core "Translation" "Simple"
        [("language", "French"), ("text", "Hello")]
      = .filled "Translate the following text to French: Hello" := by
  obtain ⟨segs2, hp2, hsegok⟩ := template_ok_segs (catalog_template_ok hc ht)
  rw [hp] at hp2
  injection hp2 with hp2
  subst hp2
  have hplain : ∀ n ∈ segVars segs, plainVar n = true := by
    intro n hn
    rw [List.all_eq_true] at hsegok
    exact hsegok _ (segVars_mem hn)
  refine ⟨?_, ?_, by decide⟩
  · simp only [use_template_core, hc, ht, hp,
      formatSegs_complete values segs hplain hall]
  · intro hvnb
    exact renderSegs_noBrace values hvnb segs hsegok

/-- C8 witness: the `Analysis/SWOT` template filled completely, and the
spec's end-to-end example. -/
theorem C8_witness :
    use_template_core "Analysis" "SWOT" [("topic", "growth")]
      = .filled "Perform a SWOT analysis of growth" ∧
    use_template_core "Translation" "Simple"
        [("language", "French"), ("text", "Hello")]
      = .filled "Translate the following text to French: Hello" := by
  have h := C8_template_fill_complete "Analysis" "SWOT"
    [("Pros and Cons", "Analyze the pros and cons of {topic}"),
     ("Compare", "Compare and contrast {item1} and {item2}"),
     ("SWOT", "Perform a SWOT analysis of {topic}")]
    "Perform a SWOT analysis of {topic}" [("topic", "growth")]
    [Seg.lit "Perform a SWOT analysis of ", Seg.var "topic"]
    (by decide) (by decide) (by decide) (by decide)
  exact ⟨h.1.trans (by decide), h.2.2⟩

/-- C10: the template fill operation is total on every input whatsoever:
no branch of `use_template_core` is the uncaught-exception branch (for the
fixed catalog the only way `str.format` can fail is a `KeyError`, which
the code catches), and `use_template` always returns a string. -/
theorem C10_use_template_total (category template_name : String)
    (values : List (String × String)) :
    use_template_core category template_name values ≠ .raised ∧
    ∃ s, use_template category template_name values = some s := by
  have hcore : use_template_core category template_name values ≠ .raised := by
    cases hc : prompt_templates.lookup category with
    | none => simp [use_template_core, hc]
    | some cat =>
      cases ht : cat.lookup template_name with
      | none => simp [use_template_core, hc, ht]
      | some tmpl =>
        obtain ⟨segs, hp, hall⟩ := template_ok_segs (catalog_template_ok hc ht)
        rcases formatSegs_shape values segs hall with ⟨st, hst⟩ | ⟨p, hperr⟩
        · simp [use_template_core, hc, ht, hp, hst]
        · simp [use_template_core, hc, ht, hp, hperr]
  refine ⟨hcore, ?_⟩
  rcases ho : use_template_core category template_name values with
    s | c | ⟨c, n⟩ | n | _
  · exact ⟨s, by simp [use_template, ho]⟩
  · exact ⟨"Category '" ++ c ++ "' not found", by simp [use_template, ho]⟩
  · exact ⟨"Template '" ++ n ++ "' not found in category '" ++ c ++ "'",
      by simp [use_template, ho]⟩
  · exact ⟨"Missing variable: '" ++ n ++ "'", by simp [use_template, ho]⟩
  · exact absurd ho hcore

/-- Association-list lookup at the head key. -/
theorem lookup_cons_self {β : Type} (k : String) (b : β)
    (l : List (String × β)) : ((k, b) :: l).lookup k = some b := by
  show (match k == k with
    | true => some b
    | false => l.lookup k) = some b
  rw [beq_self_eq_true]

/-- Association-list lookup skips a head with a different key. -/
theorem lookup_cons_ne {β : Type} (t k : String) (b : β)
    (l : List (String × β)) (h : (t == k) = false) :
    ((k, b) :: l).lookup t = l.lookup t := by
  show (match t == k with
    | true => some b
    | false => l.lookup t) = l.lookup t
  rw [h]

/-- Overwriting an existing key in place makes it map to the new value. -/
theorem lookup_map_overwrite (k : String) (v : CompEntry) :
    ∀ m : List (String × CompEntry),
      m.any (fun p => p.1 == k) = true →
      (m.map (fun p => if p.1 = k then (k, v) else p)).lookup k = some v := by
  intro m
  induction m with
  | nil => intro h; cases h
  | cons hd tl ih =>
    obtain ⟨k1, v1⟩ := hd
    intro h
    rw [List.map_cons]
    by_cases hk : k1 = k
    · subst hk
      rw [if_pos rfl]
      exact lookup_cons_self k1 v _
    · have hb : (k1 == k) = false := beq_eq_false_iff_ne.mpr hk
      have hb2 : (k == k1) = false := beq_eq_false_iff_ne.mpr (Ne.symm hk)
      simp only [List.any_cons, hb, Bool.false_or] at h
      rw [if_neg hk, lookup_cons_ne k k1 v1 _ hb2]
      exact ih h

/-- Appending a fresh key makes it map to the appended value. -/
theorem lookup_append_single (k : String) (v : CompEntry) :
    ∀ m : List (String × CompEntry),
      m.any (fun p => p.1 == k) = false →
      (m ++ [(k, v)]).lookup k = some v := by
  intro m
  induction m with
  | nil => intro _; exact lookup_cons_self k v []
  | cons hd tl ih =>
    obtain ⟨k1, v1⟩ := hd
    intro h
    simp only [List.any_cons, Bool.or_eq_false_iff] at h
    have hb2 : (k == k1) = false :=
      beq_eq_false_iff_ne.mpr (Ne.symm (beq_eq_false_iff_ne.mp h.1))
    rw [List.cons_append, lookup_cons_ne k k1 v1 _ hb2]
    exact ih h.2

/-- Python dict assignment: the assigned key maps to the assigned value. -/
theorem dict_insert_lookup_self (m : List (String × CompEntry)) (k : String)
    (v : CompEntry) : (dict_insert m k v).lookup k = some v := by
  rw [dict_insert]
  split
  · exact lookup_map_overwrite k v m (by assumption)
  · refine lookup_append_single k v m ?_
    rename_i hany
    exact Bool.eq_false_iff.mpr hany

/-- Python dict assignment: other keys are untouched (map version). -/
theorem lookup_map_ne (k : String) (v : CompEntry) (t : String)
    (hne : (t == k) = false) :
    ∀ m : List (String × CompEntry),
      (m.map (fun p => if p.1 = k then (k, v) else p)).lookup t
        = m.lookup t := by
  intro m
  induction m with
  | nil => rfl
  | cons hd tl ih =>
    obtain ⟨k1, v1⟩ := hd
    rw [List.map_cons]
    by_cases hk : k1 = k
    · subst hk
      rw [if_pos rfl, lookup_cons_ne t k1 v _ hne, lookup_cons_ne t k1 v1 _ hne]
      exact ih
    · rw [if_neg hk]
      cases ht : (t == k1) with
      | true =>
        have ht2 : t = k1 := eq_of_beq ht
        subst ht2
        rw [lookup_cons_self t v1, lookup_cons_self t v1]
      | false =>
        rw [lookup_cons_ne t k1 v1 _ ht, lookup_cons_ne t k1 v1 _ ht]
        exact ih

/-- Python dict assignment: other keys are untouched (append version). -/
theorem lookup_append_single_ne (k : String) (v : CompEntry) (t : String)
    (hne : (t == k) = false) :
    ∀ m : List (String × CompEntry),
      (m ++ [(k, v)]).lookup t = m.lookup t := by
  intro m
  induction m with
  | nil => exact lookup_cons_ne t k v [] hne
  | cons hd tl ih =>
    obtain ⟨k1, v1⟩ := hd
    rw [List.cons_append]
    cases ht : (t == k1) with
    | true =>
      have ht2 : t = k1 := eq_of_beq ht
      subst ht2
      rw [lookup_cons_self t v1, lookup_cons_self t v1]
    | false =>
      rw [lookup_cons_ne t k1 v1 _ ht, lookup_cons_ne t k1 v1 _ ht]
      exact ih

/-- Python dict assignment: other keys are untouched. -/
theorem dict_insert_lookup_ne (m : List (String × CompEntry)) (k : String)
    (v : CompEntry) (t : String) (hne : (t == k) = false) :
    (dict_insert m k v).lookup t = m.lookup t := by
  rw [dict_insert]
  split
  · exact lookup_map_ne k v t hne m
  · exact lookup_append_single_ne k v t hne m

/-- The comparison loop never touches the entry of a name that is not in
the remaining technique list. -/
theorem compare_loop_lookup_not_mem (backend : Backend) (prompt : String) :
    ∀ (ts : List String) (off : Nat) (acc : List (String × CompEntry))
      (tt : Nat) (tc : ℚ) (t : String), t ∉ ts →
      ((compare_loop backend prompt ts off acc tt tc).1).lookup t
        = acc.lookup t := by
  intro ts
  induction ts with
  | nil => intro _ _ _ _ _ _; rfl
  | cons u ts ih =>
    intro off acc tt tc t hnm
    have hne : t ≠ u := fun h => hnm (h ▸ List.mem_cons_self u ts)
    have htl : t ∉ ts := fun h => hnm (List.mem_cons_of_mem _ h)
    have hbeq : (t == u) = false := beq_eq_false_iff_ne.mpr hne
    cases hreg : technique_names.contains u with
    | true =>
      rcases he : compare_invoke (shift backend off) prompt u with ⟨r, reqs⟩
      simp only [compare_loop, hreg, he, if_true]
      rw [ih _ _ _ _ t htl, dict_insert_lookup_ne _ _ _ _ hbeq]
    | false =>
      simp only [compare_loop, hreg, Bool.false_eq_true, if_false]
      rw [ih _ _ _ _ t htl, dict_insert_lookup_ne _ _ _ _ hbeq]

/-- Every requested name ends up in the comparison results, mapped to the
entry of its (last) processing step: the invoked operation's `Result` for
a registered technique (under the backend advanced by some offset `k`),
the error dict for an unknown one. -/
theorem compare_loop_lookup_mem (backend : Backend) (prompt : String) :
    ∀ (ts : List String) (off : Nat) (acc : List (String × CompEntry))
      (tt : Nat) (tc : ℚ) (t : String), t ∈ ts →
      ∃ k, ((compare_loop backend prompt ts off acc tt tc).1).lookup t
        = some (technique_entry (shift backend k) prompt t) := by
  intro ts
  induction ts with
  | nil => intro _ _ _ _ t ht; cases ht
  | cons u ts ih =>
    intro off acc tt tc t ht
    by_cases hmem : t ∈ ts
    · cases hreg : technique_names.contains u with
      | true =>
        rcases he : compare_invoke (shift backend off) prompt u with ⟨r, reqs⟩
        simp only [compare_loop, hreg, he, if_true]
        exact ih _ _ _ _ t hmem
      | false =>
        simp only [compare_loop, hreg, Bool.false_eq_true, if_false]
        exact ih _ _ _ _ t hmem
    · have ht2 : t = u := by
        rcases List.mem_cons.mp ht with h | h
        · exact h
        · exact absurd h hmem
      subst ht2
      cases hreg : technique_names.contains t with
      | true =>
        rcases he : compare_invoke (shift backend off) prompt t with ⟨r, reqs⟩
        refine ⟨off, ?_⟩
        simp only [compare_loop, hreg, he, if_true]
        rw [compare_loop_lookup_not_mem backend prompt ts _ _ _ _ t hmem,
          dict_insert_lookup_self]
        rw [technique_entry, if_pos hreg, he]
      | false =>
        refine ⟨off, ?_⟩
        simp only [compare_loop, hreg, Bool.false_eq_true, if_false]
        rw [compare_loop_lookup_not_mem backend prompt ts _ _ _ _ t hmem,
          dict_insert_lookup_self]
        rw [technique_entry,
          if_neg (by rw [hreg]; exact Bool.false_ne_true)]

/-- The running totals of the comparison loop do not depend on the results
dict accumulated so far. -/
theorem compare_loop_totals_acc (backend : Backend) (prompt : String) :
    ∀ (ts : List String) (off : Nat)
      (acc acc2 : List (String × CompEntry)) (tt : Nat) (tc : ℚ),
      (compare_loop backend prompt ts off acc tt tc).2
        = (compare_loop backend prompt ts off acc2 tt tc).2 := by
  intro ts
  induction ts with
  | nil => intro _ _ _ _ _; rfl
  | cons u ts ih =>
    intro off acc acc2 tt tc
    cases hreg : technique_names.contains u with
    | true =>
      rcases he : compare_invoke (shift backend off) prompt u with ⟨r, reqs⟩
      simp only [compare_loop, hreg, he, if_true]
      exact ih _ _ _ _ _
    | false =>
      simp only [compare_loop, hreg, Bool.false_eq_true, if_false]
      exact ih _ _ _ _ _

/-- Unregistered names contribute nothing to the totals: filtering them
out of the request list leaves the accumulated totals unchanged. -/
theorem compare_loop_totals_filter (backend : Backend) (prompt : String) :
    ∀ (ts : List String) (off : Nat)
      (acc acc2 : List (String × CompEntry)) (tt : Nat) (tc : ℚ),
      (compare_loop backend prompt ts off acc tt tc).2
        = (compare_loop backend prompt
            (ts.filter (fun x => technique_names.contains x))
            off acc2 tt tc).2 := by
  intro ts
  induction ts with
  | nil => intro _ _ _ _ _; rfl
  | cons u ts ih =>
    intro off acc acc2 tt tc
    cases hreg : technique_names.contains u with
    | true =>
      rcases he : compare_invoke (shift backend off) prompt u with ⟨r, reqs⟩
      rw [List.filter_cons_of_pos hreg]
      simp only [compare_loop, hreg, he, if_true]
      exact ih _ _ _ _ _
    | false =>
      rw [List.filter_cons_of_neg (by rw [hreg]; exact Bool.false_ne_true)]
      simp only [compare_loop, hreg, Bool.false_eq_true, if_false]
      exact ih _ _ _ _ _

/-- C6: on any requested list, each unregistered name gets the isolated
`{"error": "Technique not found"}` entry and each registered name gets a
`Result` entry — the loop never aborts — while the accumulated totals are
exactly those of the same comparison with the unregistered names filtered
out: error entries contribute nothing to `total_tokens` or `total_cost`. -/
theorem C6_comparison_isolates_failures (backend : Backend) (prompt : String)
    (ts : List String) :
    (∀ t ∈ ts, technique_names.contains t = false →
      (compare_techniques backend prompt ts).results.lookup t
        = some (.err "Technique not found")) ∧
    (∀ t ∈ ts, technique_names.contains t = true →
      ∃ r, (compare_techniques backend prompt ts).results.lookup t
        = some (.ok r)) ∧
    (compare_techniques backend prompt ts).total_tokens
      = (compare_techniques backend prompt
          (ts.filter (fun x => technique_names.contains x))).total_tokens ∧
    (compare_techniques backend prompt ts).total_cost
      = (compare_techniques backend prompt
          (ts.filter (fun x => technique_names.contains x))).total_cost := by
  rcases hloop : compare_loop backend prompt ts 0 [] 0 0 with ⟨res, tt, tc⟩
  rcases hloop2 : compare_loop backend prompt
      (ts.filter (fun x => technique_names.contains x)) 0 [] 0 0 with
    ⟨res2, tt2, tc2⟩
  have htot := compare_loop_totals_filter backend prompt ts 0 [] [] 0 0
  rw [hloop, hloop2] at htot
  have htt : tt = tt2 := congrArg Prod.fst htot
  have htc : tc = tc2 := congrArg Prod.snd htot
  refine ⟨?_, ?_, ?_, ?_⟩
  · intro t hmem hreg
    obtain ⟨k, hk⟩ := compare_loop_lookup_mem backend prompt ts 0 [] 0 0 t hmem
    rw [hloop] at hk
    rw [technique_entry, if_neg (by rw [hreg]; exact Bool.false_ne_true)] at hk
    simp only [compare_techniques, hloop]
    exact hk
  · intro t hmem hreg
    obtain ⟨k, hk⟩ := compare_loop_lookup_mem backend prompt ts 0 [] 0 0 t hmem
    rw [hloop] at hk
    rw [technique_entry, if_pos hreg] at hk
    exact ⟨_, by simp only [compare_techniques, hloop]; exact hk⟩
  · simp only [compare_techniques, hloop, hloop2]
    exact htt
  · simp only [compare_techniques, hloop, hloop2]
    rw [htc]

/-- C6 witness: the spec's example list with one registered and one
unknown name. -/
theorem C6_witness :
    (compare_techniques okBackend "p"
        ["Zero-Shot Prompting", "NoSuchTechnique"]).results.lookup
        "NoSuchTechnique" = some (.err "Technique not found") ∧
    ((compare_techniques okBackend "p"
        ["Zero-Shot Prompting", "NoSuchTechnique"]).results.lookup
        "Zero-Shot Prompting").isSome = true := by
  have h := C6_comparison_isolates_failures okBackend "p"
    ["Zero-Shot Prompting", "NoSuchTechnique"]
  obtain ⟨r, hr⟩ := h.2.1 "Zero-Shot Prompting" (by simp) (by decide)
  refine ⟨h.1 "NoSuchTechnique" (by simp) (by decide), ?_⟩
  rw [hr]
  rfl

/-- C2 counterexample: with a backend that succeeds with text `"OK"` and
10 tokens, `compare_techniques` on `["ReAct Prompting"]` — a name that IS
in the registered dispatch table — records the fixed placeholder dict
`("Not implemented for comparison", 0 tokens, 0 cost)` and does not record
the `Result` of `react_prompting`, which on the same backend has response
`"OK"` and 10 tokens.  So the claim that every registered requested
technique's operation is invoked and its `Result` recorded is false. -/
theorem C2_counterexample :
    (compare_techniques okBackend "p" ["ReAct Prompting"]).results.lookup
        "ReAct Prompting"
      = some (.ok ⟨"Not implemented for comparison", 0, 0, none⟩) ∧
    (react_prompting okBackend "p").1
      = ⟨"OK", 10, calculate_cost 10 "gpt-3.5-turbo", none⟩ ∧
    "OK" ≠ "Not implemented for comparison" := by
  refine ⟨rfl, rfl, by decide⟩

/-- C2 amended: every requested technique name is recorded, keyed by the
name, with the entry of its processing step (under the backend advanced by
some call offset `k`); that entry invokes the corresponding operation with
the shared prompt adapted to its parameter shape for the five implemented
techniques (zero-shot, few-shot, chain-of-thought, role-playing,
persona-based), but is the fixed placeholder `Result` — the operation not
invoked — for ReAct, self-consistency and tree-of-thoughts, and the error
dict for unregistered names. -/
theorem C2_amended_comparison_dispatch (backend : Backend) (prompt : String)
    (ts : List String) (t : String) (ht : t ∈ ts) :
    (∃ k, (compare_techniques backend prompt ts).results.lookup t
      = some (technique_entry (shift backend k) prompt t)) ∧
    technique_entry backend prompt "Zero-Shot Prompting"
      = .ok (zero_shot_prompting backend prompt).1 ∧
    technique_entry backend prompt "Few-Shot Prompting"
      = .ok (few_shot_prompting backend
          ("Translate to French: " ++ prompt) none).1 ∧
    technique_entry backend prompt "Chain-of-Thought Prompting"
      = .ok (chain_of_thought_prompting backend prompt).1 ∧
    technique_entry backend prompt "Role-Playing Prompting"
      = .ok (role_playing_prompting backend "expert consultant" prompt).1 ∧
    technique_entry backend prompt "Persona-Based Prompting"
      = .ok (persona_based_prompting backend
          "experienced professional" prompt).1 ∧
    technique_entry backend prompt "ReAct Prompting"
      = .ok ⟨"Not implemented for comparison", 0, 0, none⟩ ∧
    technique_entry backend prompt "Self-Consistency Prompting"
      = .ok ⟨"Not implemented for comparison", 0, 0, none⟩ ∧
    technique_entry backend prompt "Tree-of-Thoughts Prompting"
      = .ok ⟨"Not implemented for comparison", 0, 0, none⟩ := by
  refine ⟨?_, rfl, rfl, rfl, rfl, rfl, rfl, rfl, rfl⟩
  rcases hloop : compare_loop backend prompt ts 0 [] 0 0 with ⟨res, tt, tc⟩
  obtain ⟨k, hk⟩ := compare_loop_lookup_mem backend prompt ts 0 [] 0 0 t ht
  rw [hloop] at hk
  exact ⟨k, by simp only [compare_techniques, hloop]; exact hk⟩

/-- C2 witness: the amended theorem applied to a singleton request list. -/
theorem C2_witness :
    technique_entry okBackend "p" "Zero-Shot Prompting"
      = .ok (zero_shot_prompting okBackend "p").1 :=
  (C2_amended_comparison_dispatch okBackend "p" ["Zero-Shot Prompting"]
    "Zero-Shot Prompting" (by simp)).2.1
